import Mathlib

/-!
Verification of the `sqler` package: a thin interface-abstraction layer over
Go's `database/sql`. Every Go function/method of `src/sqler.go` is embedded
shallowly below. Native `database/sql` objects (the external driver boundary
that the package wraps) are modelled as records of abstract behaviours: a
field of type `Except Error A` models a Go call returning `(A, error)` where
the value is nil exactly when the error is non-nil (which is how this code
uses them), and `Option Error` models a call returning only `error`
(`none` = nil error). Side effects on the driver (closing a connection,
committing a transaction, pinging) are made observable as an explicit list of
`Event`s produced in call order, so that lifecycle claims (which connection
was closed, and when) are statable.
-/

namespace Sqler

/-- Model of `context.Context`: an abstract token, forwarded verbatim. -/
abbrev Ctx := Nat

/-- Model of a Go `error` value that is present (non-nil). -/
abbrev Error := String

/-- Model of one variadic query argument (`interface\x7b\x7d`), abstract. -/
abbrev Arg := Int

/-- Model of one `Scan` destination pointer, abstract. -/
abbrev Dest := Nat

/-- Model of one column value decoded by a scan. -/
abbrev Value := Int

/-- Model of `*sql.TxOptions` (a nullable pointer to isolation + read-only). -/
abbrev TxOptions := Option (Nat × Bool)

/-- Model of `sql.Result`: the driver's result summary. -/
structure SqlResult where
  rowsAffected : Int
  lastInsertId : Int
deriving DecidableEq

/-- Model of `*sql.Rows`: the native cursor object. Only its identity matters
to the claims, so it is an abstract reference. -/
structure SqlRows where
  id : Nat
deriving DecidableEq

/-- The outcome a native `*sql.Row` carries: either the query failed with an
error captured at `QueryRow` time, or it holds the (possibly empty) row set
from which `Scan` takes the first row. -/
inductive SqlRowState where
  | failed (e : Error)
  | rows (data : List (List Value))

/-- Model of `*sql.Row`: the native deferred single-row result. -/
structure SqlRow where
  state : SqlRowState

/-- Model of `sql.ErrNoRows`, the sentinel returned by `Row.Scan` when the
query produced no rows. -/
def errNoRows : Error := "sql: no rows in result set"

/-- Model of the native `(*sql.Row).Scan` contract documented by
`database/sql`: a captured error is returned as-is, an empty row set yields
`ErrNoRows`, otherwise the first row's values are decoded into the
destinations. `.ok vs` models a nil error together with the values written
to the destinations; `.error e` models returning `e` with no destination
modified. -/
def SqlRow.Scan (r : SqlRow) (dest : List Dest) : Except Error (List Value) :=
  match r.state with
  | .failed e => .error e
  | .rows [] => .error errNoRows
  | .rows (first :: _) => .ok first

/-- Model of `*sql.Stmt`: the native prepared statement with its own
execute/query behaviours and close outcome. -/
structure SqlStmt where
  id : Nat
  execContext : Ctx → List Arg → Except Error SqlResult
  queryContext : Ctx → List Arg → Except Error SqlRows
  queryRowContext : Ctx → List Arg → SqlRow
  close : Option Error

/-- `SQLQueryer` (src/sqler.go lines 72-78): the common interface of
`*sql.DB`, `*sql.Conn` and `*sql.Tx`, modelled as a record of the four
context-taking driver operations. -/
structure SQLQueryer where
  execContext : Ctx → String → List Arg → Except Error SqlResult
  prepareContext : Ctx → String → Except Error SqlStmt
  queryContext : Ctx → String → List Arg → Except Error SqlRows
  queryRowContext : Ctx → String → List Arg → SqlRow

/-- Model of `*sql.Tx`: the native transaction. `commit`/`rollback` are the
errors its `Commit`/`Rollback` return (`none` = success); `stmtContext`
models `(*sql.Tx).StmtContext`, which always returns a statement and defers
any rebind failure into that statement's later operations. -/
structure SqlTx where
  id : Nat
  asQueryer : SQLQueryer
  commit : Option Error
  rollback : Option Error
  stmtContext : Ctx → SqlStmt → SqlStmt

/-- `SQLConn` (src/sqler.go lines 80-86): the common interface of `*sql.DB`
and `*sql.Conn` — `SQLQueryer` plus `BeginTx`, `Close` and `PingContext`.
`id` identifies the native connection object for the event trace. -/
structure SQLConn where
  id : Nat
  asQueryer : SQLQueryer
  beginTx : Ctx → TxOptions → Except Error SqlTx
  close : Option Error
  pingContext : Ctx → Option Error

/-- Model of `*sql.DB`: the native pooled handle. `conn` models
`(*sql.DB).Conn`, leasing a dedicated `*sql.Conn` from the pool. -/
structure SqlDB where
  id : Nat
  asQueryer : SQLQueryer
  conn : Ctx → Except Error SQLConn
  beginTx : Ctx → TxOptions → Except Error SqlTx
  close : Option Error

/-- Observable driver-level side effects, recorded in call order. -/
inductive Event where
  | connClose (id : Nat)
  | dbClose (id : Nat)
  | connPing (id : Nat)
  | txCommit (id : Nat)
  | txRollback (id : Nat)
deriving DecidableEq

/-- `wrappedQueryer` (line 211): holds the underlying `SQLQueryer`. -/
structure wrappedQueryer where
  q : SQLQueryer

/-- `wrappedStmt` (line 243): embeds the native `*sql.Stmt`. -/
structure wrappedStmt where
  stmt : SqlStmt

/-- `wrappedTx` (line 196): the native `*sql.Tx` plus the `Queryer` built
from it by `WrapQueryer(tx)`. -/
structure wrappedTx where
  tx : SqlTx
  queryer : wrappedQueryer

/-- `wrappedConn` (line 175): the underlying `SQLConn` plus the `Queryer`
built from it. -/
structure wrappedConn where
  c : SQLConn
  queryer : wrappedQueryer

/-- `wrappedDB` (line 104): embeds the native `*sql.DB` plus the `Queryer`
built from it. -/
structure wrappedDB where
  db : SqlDB
  queryer : wrappedQueryer

/-- `errRow` (line 169): a Row backed by a pre-captured error. -/
structure errRow where
  err : Error

/-- `Conn` interface (lines 36-41); its implementations in the package are
`wrappedConn` and `wrappedDB` (the `DB` interface embeds `Conn`). -/
inductive Conn where
  | wrappedC (c : wrappedConn)
  | wrappedD (db : wrappedDB)

/-- `Tx` interface (lines 43-48); its implementations are `wrappedTx` and
`connTx` (line 129), the latter a struct holding a `Conn` plus an embedded
`Tx` to delegate to. -/
inductive Tx where
  | wrapped (tx : wrappedTx)
  | connTx (c : Conn) (inner : Tx)

/-- `Row` interface (lines 68-70); its implementations are the native
`*sql.Row` (used directly, no wrapper) and `errRow`. -/
inductive Row where
  | sqlRow (r : SqlRow)
  | errRow (r : errRow)

/-- `Rows` interface (lines 58-66): the only implementation the package ever
returns is the native `*sql.Rows` itself. -/
abbrev Rows := SqlRows

/-- `Queryer` interface (lines 20-25): sole implementation `wrappedQueryer`. -/
abbrev Queryer := wrappedQueryer

/-- `Stmt` interface (lines 50-56): sole implementation `wrappedStmt`. -/
abbrev Stmt := wrappedStmt

/-- `DB` interface (lines 27-34): sole implementation `wrappedDB`. -/
abbrev DB := wrappedDB

/-- `WrapQueryer` (lines 96-98). -/
def WrapQueryer (q : SQLQueryer) : Queryer := ⟨q⟩

/-- `WrapStmt` (lines 100-102). -/
def WrapStmt (stmt : SqlStmt) : Stmt := ⟨stmt⟩

/-- `WrapConn` (lines 92-94): `wrappedConn\x7bc, WrapQueryer(c)\x7d` — the
queryer is the connection's own `SQLQueryer` face. -/
def WrapConn (c : SQLConn) : Conn :=
  Conn.wrappedC ⟨c, WrapQueryer c.asQueryer⟩

/-- `WrapDB` (lines 88-90). -/
def WrapDB (db : SqlDB) : DB := ⟨db, WrapQueryer db.asQueryer⟩

/-- `Open` (lines 12-18). `sql.Open` is external to the package, so its
behaviour is a parameter. -/
def Open (sqlOpen : String → String → Except Error SqlDB)
    (driverName dataSourceName : String) : Except Error DB :=
  match sqlOpen driverName dataSourceName with
  | .error e => .error e
  | .ok db => .ok (WrapDB db)

/-- `errRow.Scan` (line 173): `return err.err`, destinations untouched. -/
def errRow.Scan (r : errRow) (dest : List Dest) : Except Error (List Value) :=
  .error r.err

/-- Dispatch of `Row.Scan` over the two implementations of `Row`. -/
def Row.Scan : Row → List Dest → Except Error (List Value)
  | .sqlRow r, ds => SqlRow.Scan r ds
  | .errRow r, ds => errRow.Scan r ds

/-- `wrappedQueryer.Exec` (lines 215-221). -/
def wrappedQueryer.Exec (q : wrappedQueryer) (ctx : Ctx) (query : String)
    (args : List Arg) : Except Error SqlResult :=
  match q.q.execContext ctx query args with
  | .error e => .error e
  | .ok r => .ok r

/-- `wrappedQueryer.Prepare` (lines 223-229). -/
def wrappedQueryer.Prepare (q : wrappedQueryer) (ctx : Ctx)
    (query : String) : Except Error Stmt :=
  match q.q.prepareContext ctx query with
  | .error e => .error e
  | .ok s => .ok (WrapStmt s)

/-- `wrappedQueryer.Query` (lines 231-237): on success the returned `Rows`
is the native `*sql.Rows` value itself. -/
def wrappedQueryer.Query (q : wrappedQueryer) (ctx : Ctx) (query : String)
    (args : List Arg) : Except Error Rows :=
  match q.q.queryContext ctx query args with
  | .error e => .error e
  | .ok rows => .ok rows

/-- `wrappedQueryer.QueryRow` (lines 239-241): returns the native `*sql.Row`
directly, with no error return value. -/
def wrappedQueryer.QueryRow (q : wrappedQueryer) (ctx : Ctx) (query : String)
    (args : List Arg) : Row :=
  Row.sqlRow (q.q.queryRowContext ctx query args)

/-- `wrappedStmt.Exec` (lines 247-253). -/
def wrappedStmt.Exec (s : wrappedStmt) (ctx : Ctx) (args : List Arg) :
    Except Error SqlResult :=
  match s.stmt.execContext ctx args with
  | .error e => .error e
  | .ok r => .ok r

/-- `wrappedStmt.Query` (lines 255-261). -/
def wrappedStmt.Query (s : wrappedStmt) (ctx : Ctx) (args : List Arg) :
    Except Error Rows :=
  match s.stmt.queryContext ctx args with
  | .error e => .error e
  | .ok w => .ok w

/-- `wrappedStmt.QueryRow` (lines 263-265). -/
def wrappedStmt.QueryRow (s : wrappedStmt) (ctx : Ctx) (args : List Arg) :
    Row :=
  Row.sqlRow (s.stmt.queryRowContext ctx args)

/-- `wrappedStmt.Unwrap` (lines 267-269). -/
def wrappedStmt.Unwrap (s : wrappedStmt) : SqlStmt := s.stmt

/-- `wrappedDB.Unwrap` (lines 117-119). -/
def wrappedDB.Unwrap (db : wrappedDB) : SqlDB := db.db

/-- `wrappedDB.Exec` (lines 153-155). -/
def wrappedDB.Exec (db : wrappedDB) (ctx : Ctx) (query : String)
    (args : List Arg) : Except Error SqlResult :=
  wrappedQueryer.Exec db.queryer ctx query args

/-- `wrappedDB.Prepare` (lines 157-159). -/
def wrappedDB.Prepare (db : wrappedDB) (ctx : Ctx) (query : String) :
    Except Error Stmt :=
  wrappedQueryer.Prepare db.queryer ctx query

/-- `wrappedDB.Query` (lines 161-163). -/
def wrappedDB.Query (db : wrappedDB) (ctx : Ctx) (query : String)
    (args : List Arg) : Except Error Rows :=
  wrappedQueryer.Query db.queryer ctx query args

/-- `wrappedDB.QueryRow` (lines 165-167). -/
def wrappedDB.QueryRow (db : wrappedDB) (ctx : Ctx) (query : String)
    (args : List Arg) : Row :=
  wrappedQueryer.QueryRow db.queryer ctx query args

/-- `wrappedDB.BeginTx` (lines 121-127): wraps the native transaction in a
plain `wrappedTx`. -/
def wrappedDB.BeginTx (db : wrappedDB) (ctx : Ctx) (opts : TxOptions) :
    Except Error Tx :=
  match db.db.beginTx ctx opts with
  | .error e => .error e
  | .ok tx => .ok (Tx.wrapped ⟨tx, WrapQueryer tx.asQueryer⟩)

/-- `wrappedConn.BeginTx` (lines 180-186): also wraps the native transaction
in a plain `wrappedTx` — the `connTx` type is not used here. -/
def wrappedConn.BeginTx (c : wrappedConn) (ctx : Ctx) (opts : TxOptions) :
    Except Error Tx :=
  match c.c.beginTx ctx opts with
  | .error e => .error e
  | .ok tx => .ok (Tx.wrapped ⟨tx, WrapQueryer tx.asQueryer⟩)

/-- `wrappedConn.Close` (lines 188-190): `return c.c.Close()`. -/
def wrappedConn.Close (c : wrappedConn) : Option Error × List Event :=
  (c.c.close, [Event.connClose c.c.id])

/-- `wrappedConn.Ping` (lines 192-194): `return c.c.PingContext(ctx)`. -/
def wrappedConn.Ping (c : wrappedConn) (ctx : Ctx) :
    Option Error × List Event :=
  (c.c.pingContext ctx, [Event.connPing c.c.id])

/-- `wrappedDB.Conn` (lines 109-115): leases a native connection and wraps
it with `WrapConn`. -/
def wrappedDB.Conn (db : wrappedDB) (ctx : Ctx) : Except Error Sqler.Conn :=
  match db.db.conn ctx with
  | .error e => .error e
  | .ok c => .ok (WrapConn c)

/-- `wrappedDB.Ping` (lines 144-151): lease a connection via `db.Conn`,
return the lease error if any; otherwise ping it and close it on the way out
(`defer conn.Close()` — its error is discarded). The leased `Conn` is always
the `wrappedConn` built by `WrapConn`, so its `Ping`/`Close` calls are
devirtualised to `wrappedConn.Ping`/`wrappedConn.Close` here. -/
def wrappedDB.Ping (db : wrappedDB) (ctx : Ctx) : Option Error × List Event :=
  match db.db.conn ctx with
  | .error e => (some e, [])
  | .ok c =>
    let wc : wrappedConn := ⟨c, WrapQueryer c.asQueryer⟩
    let p := wrappedConn.Ping wc ctx
    let cl := wrappedConn.Close wc
    (p.1, p.2 ++ cl.2)

/-- Dispatch of `Conn.Close` over the two implementations: `wrappedConn`
has its own `Close`; `wrappedDB`'s `Close` is the promoted `(*sql.DB).Close`
of its embedded native handle. -/
def Conn.Close : Conn → Option Error × List Event
  | .wrappedC c => wrappedConn.Close c
  | .wrappedD d => (d.db.close, [Event.dbClose d.db.id])

/-- Dispatch of `Conn.Ping` over the two implementations. -/
def Conn.Ping : Conn → Ctx → Option Error × List Event
  | .wrappedC c, ctx => wrappedConn.Ping c ctx
  | .wrappedD d, ctx => wrappedDB.Ping d ctx

/-- Dispatch of `Conn.BeginTx` over the two implementations. -/
def Conn.BeginTx : Conn → Ctx → TxOptions → Except Error Tx
  | .wrappedC c, ctx, opts => wrappedConn.BeginTx c ctx opts
  | .wrappedD d, ctx, opts => wrappedDB.BeginTx d ctx opts

/-- `Tx.Commit`: `wrappedTx.Commit` (lines 201-203) delegates to the native
transaction; `connTx.Commit` (lines 134-137) runs `defer tx.c.Close()`
around `tx.Tx.Commit()` — the inner commit's result is returned, the
deferred close runs afterwards and its error is discarded by `defer`. -/
def Tx.Commit : Tx → Option Error × List Event
  | .wrapped w => (w.tx.commit, [Event.txCommit w.tx.id])
  | .connTx c inner =>
    let r := Tx.Commit inner
    let cl := Conn.Close c
    (r.1, r.2 ++ cl.2)

/-- `Tx.Rollback`: `wrappedTx.Rollback` (lines 204-206) and
`connTx.Rollback` (lines 139-142), mirror images of `Commit`. -/
def Tx.Rollback : Tx → Option Error × List Event
  | .wrapped w => (w.tx.rollback, [Event.txRollback w.tx.id])
  | .connTx c inner =>
    let r := Tx.Rollback inner
    let cl := Conn.Close c
    (r.1, r.2 ++ cl.2)

/-- `wrappedTx.Stmt` (lines 207-209):
`WrapStmt(tx.tx.StmtContext(ctx, stmt.Unwrap()))`. -/
def wrappedTx.Stmt (tx : wrappedTx) (ctx : Ctx) (stmt : wrappedStmt) :
    wrappedStmt :=
  WrapStmt (tx.tx.stmtContext ctx (wrappedStmt.Unwrap stmt))

/-! Concrete driver fixtures used by closed evaluation theorems. -/

/-- A driver queryer whose `QueryRowContext` captures the error "boom". -/
def q0 : SQLQueryer :=
  ⟨fun _ _ _ => .ok ⟨1, 2⟩,
   fun _ _ => .error "prepare failed",
   fun _ _ _ => .ok ⟨11⟩,
   fun _ _ _ => ⟨.failed "boom"⟩⟩

/-- A driver queryer whose `QueryRowContext` yields an empty row set. -/
def qZero : SQLQueryer :=
  ⟨fun _ _ _ => .ok ⟨1, 2⟩,
   fun _ _ => .error "prepare failed",
   fun _ _ _ => .ok ⟨11⟩,
   fun _ _ _ => ⟨.rows []⟩⟩

/-- A native transaction (id 7) whose commit and rollback succeed. -/
def txA : SqlTx := ⟨7, q0, none, none, fun _ s => s⟩

/-- A native connection (id 1) whose `BeginTx` yields `txA` and whose
`Close` fails. -/
def connA : SQLConn :=
  ⟨1, q0, fun _ _ => .ok txA, some "close failed", fun _ => none⟩

/-- A native connection (id 5) whose ping and close both succeed. -/
def conn5 : SQLConn := ⟨5, q0, fun _ _ => .ok txA, none, fun _ => none⟩

/-- A native pooled handle whose `Conn` leases `conn5`. -/
def sdb5 : SqlDB := ⟨3, q0, fun _ => .ok conn5, fun _ _ => .ok txA, none⟩

/-- A native pooled handle whose `Conn` fails with "no conns". -/
def sdbBad : SqlDB :=
  ⟨4, q0, fun _ => .error "no conns", fun _ _ => .error "no conns", none⟩

/-- A healthy native prepared statement (id 4). -/
def st1 : SqlStmt :=
  ⟨4, fun _ _ => .ok ⟨1, 2⟩, fun _ _ => .ok ⟨11⟩, fun _ _ => ⟨.rows []⟩, none⟩

/-- A native statement representing a failed rebind: all its operations
fail with "rebind failed". -/
def stBroken : SqlStmt :=
  ⟨9, fun _ _ => .error "rebind failed", fun _ _ => .error "rebind failed",
   fun _ _ => ⟨.failed "rebind failed"⟩, none⟩

/-- A native transaction (id 8) whose `StmtContext` produces `stBroken`. -/
def txR : SqlTx := ⟨8, q0, none, none, fun _ _ => stBroken⟩

/-- An `sql.Open` behaviour: fails on the data source name "bad". -/
def openA : String → String → Except Error SqlDB :=
  fun _ dsn => if dsn = "bad" then .error "connect error" else .ok sdb5

/-- The transaction value `wrappedConn.BeginTx` actually returns for
`connA`: a plain `wrappedTx` around `txA`, with no connection coupling. -/
def txWA : Tx := Tx.wrapped ⟨txA, WrapQueryer txA.asQueryer⟩

/-! Theorems settling the claims. -/

/-- C1: the claim states that a Transaction begun from an explicitly leased
Connection closes that Connection when `Commit` or `Rollback` returns. The
code does not do this: `wrappedConn.BeginTx` returns a plain `wrappedTx`
(never the `connTx` wrapper that would close the connection), so for the
concrete leased connection `connA` (native id 1) the returned transaction's
`Commit` and `Rollback` traces consist solely of the driver commit/rollback
— no `Event.connClose 1` ever occurs, and the connection stays open. -/
theorem connBeginTx_then_commit_leaves_connection_open :
    Conn.BeginTx (WrapConn connA) 0 none = Except.ok txWA ∧
    Tx.Commit txWA = (none, [Event.txCommit 7]) ∧
    Tx.Rollback txWA = (none, [Event.txRollback 7]) :=
  ⟨rfl, rfl, rfl⟩

/-- C2: `QueryRow` on a wrapped queryer (backing the Database handle,
Connection and Transaction) and on a wrapped Statement never fails
synchronously: it always returns the native driver Row, and an underlying
failure — including the zero-rows condition, reported as `errNoRows` — is
surfaced only when `Scan` is invoked on that Row. -/
theorem queryRow_never_fails_synchronously :
    ∀ (w : wrappedQueryer) (db : wrappedDB) (st : wrappedStmt) (ctx : Ctx)
      (s : String) (a : List Arg),
      wrappedQueryer.QueryRow w ctx s a =
        Row.sqlRow (w.q.queryRowContext ctx s a) ∧
      wrappedDB.QueryRow db ctx s a =
        Row.sqlRow (db.queryer.q.queryRowContext ctx s a) ∧
      wrappedStmt.QueryRow st ctx a =
        Row.sqlRow (st.stmt.queryRowContext ctx a) ∧
      (∀ (e : Error) (ds : List Dest),
        (w.q.queryRowContext ctx s a).state = SqlRowState.failed e →
        Row.Scan (wrappedQueryer.QueryRow w ctx s a) ds = Except.error e) ∧
      (∀ ds : List Dest,
        (w.q.queryRowContext ctx s a).state = SqlRowState.rows [] →
        Row.Scan (wrappedQueryer.QueryRow w ctx s a) ds =
          Except.error errNoRows) := by
  intro w db st ctx s a
  refine ⟨rfl, rfl, rfl, ?_, ?_⟩
  · intro e ds h
    simp [wrappedQueryer.QueryRow, Row.Scan, SqlRow.Scan, h]
  · intro ds h
    simp [wrappedQueryer.QueryRow, Row.Scan, SqlRow.Scan, h]

/-- Closed witness for C2: a captured driver error surfaces on `Scan` as
that very error, and a zero-row outcome surfaces on `Scan` as `errNoRows`. -/
theorem queryRow_never_fails_synchronously_witness :
    Row.Scan (wrappedQueryer.QueryRow (WrapQueryer q0) 0 "q" []) [] =
      Except.error "boom" ∧
    Row.Scan (wrappedQueryer.QueryRow (WrapQueryer qZero) 0 "q" []) [] =
      Except.error errNoRows :=
  ⟨(queryRow_never_fails_synchronously (WrapQueryer q0) (WrapDB sdb5)
      (WrapStmt st1) 0 "q" []).2.2.2.1 "boom" [] rfl,
   (queryRow_never_fails_synchronously (WrapQueryer qZero) (WrapDB sdb5)
      (WrapStmt st1) 0 "q" []).2.2.2.2 [] rfl⟩

/-- C3: wrapping then unwrapping is the identity on the native object, both
for pooled handles (`WrapDB`/`Unwrap`) and prepared statements
(`WrapStmt`/`Unwrap`). -/
theorem wrap_unwrap_identity :
    ∀ (db : SqlDB) (s : SqlStmt),
      wrappedDB.Unwrap (WrapDB db) = db ∧
      wrappedStmt.Unwrap (WrapStmt s) = s :=
  fun _ _ => ⟨rfl, rfl⟩

/-- C4: `Exec` on a wrapped Queryer and on a wrapped Statement returns
exactly the underlying driver's outcome: the identical result summary on
success, and the driver's error verbatim on failure, with no wrapping,
retry or reclassification. -/
theorem exec_forwards_driver_result_verbatim :
    ∀ (w : wrappedQueryer) (st : wrappedStmt) (ctx : Ctx) (s : String)
      (a : List Arg),
      wrappedQueryer.Exec w ctx s a = w.q.execContext ctx s a ∧
      wrappedStmt.Exec st ctx a = st.stmt.execContext ctx a := by
  intro w st ctx s a
  constructor
  · cases h : w.q.execContext ctx s a <;> simp [wrappedQueryer.Exec, h]
  · cases h : st.stmt.execContext ctx a <;> simp [wrappedStmt.Exec, h]

/-- C5 counterexample: the claim states that a failure of the owned
Connection's `Close`, invoked by the coupled transaction's `Commit`, is
surfaced to the caller. For `connA`, whose `Close` fails with
"close failed", and a succeeding inner commit, `connTx.Commit` nevertheless
returns `none`: the deferred `Close`'s error is discarded, never surfaced. -/
theorem connTx_commit_drops_close_error :
    SQLConn.close connA = some "close failed" ∧
    Tx.Commit (Tx.connTx (WrapConn connA) txWA) =
      (none, [Event.txCommit 7, Event.connClose 1]) :=
  ⟨rfl, rfl⟩

/-- C5 amended: for a connection-owning transaction (`connTx` over a
wrapped leased connection), `Commit` and `Rollback` always invoke the owned
Connection's `Close` after delegating to the driver — regardless of the
commit/rollback outcome — and return exactly the driver's commit/rollback
error, unmasked by the close; the close's own error is discarded by the
deferred call rather than surfaced. -/
theorem connTx_commit_closes_conn_returns_commit_result :
    ∀ (cw : wrappedConn) (tw : wrappedTx),
      Tx.Commit (Tx.connTx (Conn.wrappedC cw) (Tx.wrapped tw)) =
        (tw.tx.commit,
         [Event.txCommit tw.tx.id, Event.connClose cw.c.id]) ∧
      Tx.Rollback (Tx.connTx (Conn.wrappedC cw) (Tx.wrapped tw)) =
        (tw.tx.rollback,
         [Event.txRollback tw.tx.id, Event.connClose cw.c.id]) :=
  fun _ _ => ⟨rfl, rfl⟩

/-- C6: `Ping` on a wrapped Database handle leases a dedicated connection,
pings it, and closes it before returning. If the lease fails, the lease
error is returned and nothing is pinged or closed; otherwise the trace is
exactly a ping of the leased connection followed by its close — the close
happens whether or not the ping succeeded — and the ping's result is
returned. -/
theorem ping_leases_pings_closes :
    ∀ (db : wrappedDB) (ctx : Ctx),
      (∀ e : Error, db.db.conn ctx = Except.error e →
        wrappedDB.Ping db ctx = (some e, [])) ∧
      (∀ c : SQLConn, db.db.conn ctx = Except.ok c →
        wrappedDB.Ping db ctx =
          (c.pingContext ctx, [Event.connPing c.id, Event.connClose c.id])) := by
  intro db ctx
  constructor
  · intro e h
    simp [wrappedDB.Ping, h]
  · intro c h
    simp [wrappedDB.Ping, h, wrappedConn.Ping, wrappedConn.Close]

/-- Closed witness for C6: a failing lease returns the lease error with no
driver activity; a healthy lease produces exactly ping-then-close on the
leased connection (native id 5) and returns the ping's success. -/
theorem ping_leases_pings_closes_witness :
    wrappedDB.Ping (WrapDB sdbBad) 0 = (some "no conns", []) ∧
    wrappedDB.Ping (WrapDB sdb5) 0 =
      (none, [Event.connPing 5, Event.connClose 5]) :=
  ⟨(ping_leases_pings_closes (WrapDB sdbBad) 0).1 "no conns" rfl,
   (ping_leases_pings_closes (WrapDB sdb5) 0).2 conn5 rfl⟩

/-- C7: `Stmt` on a wrapped Transaction always returns a new Statement
wrapper synchronously (its type has no error return): it passes the native
prepared statement obtained via `Unwrap` to the driver's `StmtContext`
rebind, and if the rebind produced a statement whose operations fail, that
failure surfaces only through the returned Statement's later operations,
such as `Exec`. -/
theorem tx_stmt_rebinds_and_defers_failure :
    ∀ (tx : wrappedTx) (ctx : Ctx) (s : wrappedStmt),
      wrappedTx.Stmt tx ctx s =
        WrapStmt (tx.tx.stmtContext ctx (wrappedStmt.Unwrap s)) ∧
      (∀ (e : Error) (ctx2 : Ctx) (a : List Arg),
        (tx.tx.stmtContext ctx (wrappedStmt.Unwrap s)).execContext ctx2 a =
          Except.error e →
        wrappedStmt.Exec (wrappedTx.Stmt tx ctx s) ctx2 a =
          Except.error e) := by
  intro tx ctx s
  refine ⟨rfl, ?_⟩
  intro e ctx2 a h
  simp [wrappedTx.Stmt, WrapStmt, wrappedStmt.Exec, h]

/-- Closed witness for C7: rebinding through `txR` yields the broken
statement `stBroken`, and its failure appears at the later `Exec`. -/
theorem tx_stmt_rebinds_and_defers_failure_witness :
    wrappedStmt.Exec
      (wrappedTx.Stmt ⟨txR, WrapQueryer txR.asQueryer⟩ 0 (WrapStmt st1)) 0 []
      = Except.error "rebind failed" :=
  (tx_stmt_rebinds_and_defers_failure ⟨txR, WrapQueryer txR.asQueryer⟩ 0
    (WrapStmt st1)).2 "rebind failed" 0 [] rfl

/-- C8: `Scan` on an `errRow` returns exactly the captured error for every
destination list; since the result is always `Except.error`, no value is
ever decoded into any destination. The same holds through the `Row`
interface dispatch. -/
theorem errRow_scan_returns_captured_error :
    ∀ (e : Error) (ds : List Dest),
      errRow.Scan ⟨e⟩ ds = Except.error e ∧
      Row.Scan (Row.errRow ⟨e⟩) ds = Except.error e :=
  fun _ _ => ⟨rfl, rfl⟩

/-- C9: `Open` forwards the handle-opening outcome with no local recovery:
a failure of the underlying `sql.Open` is returned as-is (and no handle is
produced), and a success is returned as the wrapped handle with no error. -/
theorem open_forwards_outcome :
    ∀ (sqlOpen : String → String → Except Error SqlDB)
      (driverName dataSourceName : String),
      (∀ e : Error, sqlOpen driverName dataSourceName = Except.error e →
        Open sqlOpen driverName dataSourceName = Except.error e) ∧
      (∀ db : SqlDB, sqlOpen driverName dataSourceName = Except.ok db →
        Open sqlOpen driverName dataSourceName =
          Except.ok (WrapDB db)) := by
  intro sqlOpen driverName dataSourceName
  constructor
  · intro e h
    simp [Open, h]
  · intro db h
    simp [Open, h]

/-- Closed witness for C9: an invalid data source surfaces the connect
error; a valid one yields the wrapped handle. -/
theorem open_forwards_outcome_witness :
    Open openA "drv" "bad" = Except.error "connect error" ∧
    Open openA "drv" "good" = Except.ok (WrapDB sdb5) :=
  ⟨(open_forwards_outcome openA "drv" "bad").1 "connect error" rfl,
   (open_forwards_outcome openA "drv" "good").2 sdb5 rfl⟩

/-- C10: every `Rows` returned by a successful `Query` and every `Row`
returned by `QueryRow` — on the wrapped queryer, the Database handle, and
the wrapped Statement — is the underlying driver's native object itself:
`Query` returns the driver's `*sql.Rows` outcome unchanged, and `QueryRow`
returns the native `*sql.Row` under the `Row.sqlRow` coercion, so the
captured-error `errRow` variant is never produced by any public operation
and all cursor/row behaviour is the driver's own. -/
theorem query_and_queryRow_return_native_objects :
    ∀ (w : wrappedQueryer) (db : wrappedDB) (st : wrappedStmt) (ctx : Ctx)
      (s : String) (a : List Arg),
      wrappedQueryer.Query w ctx s a = w.q.queryContext ctx s a ∧
      wrappedDB.Query db ctx s a = db.queryer.q.queryContext ctx s a ∧
      wrappedStmt.Query st ctx a = st.stmt.queryContext ctx a ∧
      wrappedQueryer.QueryRow w ctx s a =
        Row.sqlRow (w.q.queryRowContext ctx s a) ∧
      wrappedDB.QueryRow db ctx s a =
        Row.sqlRow (db.queryer.q.queryRowContext ctx s a) ∧
      wrappedStmt.QueryRow st ctx a =
        Row.sqlRow (st.stmt.queryRowContext ctx a) := by
  intro w db st ctx s a
  refine ⟨?_, ?_, ?_, rfl, rfl, rfl⟩
  · cases h : w.q.queryContext ctx s a <;> simp [wrappedQueryer.Query, h]
  · cases h : db.queryer.q.queryContext ctx s a <;>
      simp [wrappedDB.Query, wrappedQueryer.Query, h]
  · cases h : st.stmt.queryContext ctx a <;> simp [wrappedStmt.Query, h]

end Sqler
